import Mathlib

/-!
# Mini Voxel World: a verification development of `script.js`

The definitions below are a shallow embedding of the voxel grid, the terrain
generator, the pointer interactions, the key and frame callbacks and the
save/load routines of `src/script.js`.  Conventions of the embedding:

* the global `state` object and `camera.position` are passed explicitly;
* grid coordinates are integers (`Int`), block types are palette ids (`Nat`);
* the numbers of a ray are exact rationals (`ℚ`), division by zero is modelled
  explicitly;
* `Math.sin`, `Math.cos` and `Math.floor` are the real sine, cosine and floor;
* the script calls `init(); animate();` at lines 34 and 35, above the
  declarations `const cubeGeo` (142), `let move` (205) and `let lastTime`
  (227).  A read of such a binding before its declaration is evaluated throws
  a `ReferenceError`; the three bindings are therefore passed explicitly, with
  their initialisation state, to the functions that read them.
-/

namespace MiniVoxel

/-! ## Settings -/

/-- Width and depth of the grid (`const WORLD_SIZE = 32`). -/
def WORLD_SIZE : Int := 32

/-- Vertical build height (`const WORLD_HEIGHT = 12`). -/
def WORLD_HEIGHT : Int := 12

/-- World units per block (`const BLOCK_SIZE = 1`). -/
def BLOCK_SIZE : ℚ := 1

/-! ## Keys of `state.blocks` -/

/-- A JavaScript string, as its list of characters. -/
abbrev Key := List Char

/-- Decimal digit character of a digit `d < 10`. -/
def digitChar : Nat → Char
  | 0 => '0'
  | 1 => '1'
  | 2 => '2'
  | 3 => '3'
  | 4 => '4'
  | 5 => '5'
  | 6 => '6'
  | 7 => '7'
  | 8 => '8'
  | _ => '9'

/-- Decimal rendering of a natural number, most significant digit first
(`Number.prototype.toString` on a non-negative integer). -/
def natToString (n : Nat) : Key :=
  if n = 0 then ['0'] else ((Nat.digits 10 n).map digitChar).reverse

/-- Decimal rendering of an integer, as a template literal prints it. -/
def intToString : Int → Key
  | Int.ofNat n => natToString n
  | Int.negSucc n => '-' :: natToString (n + 1)

/-- The key of a cell: `keyFrom(x,y,z)` returns `x,y,z` joined by commas. -/
def keyFrom (x y z : Int) : Key :=
  intToString x ++ ',' :: (intToString y ++ ',' :: intToString z)

/-! ## The block map `state.blocks` -/

/-- The object `state.blocks`: an association list from key to block type. -/
abbrev Blocks := List (Key × Nat)

/-- Property read `state.blocks[k]`; `none` stands for `undefined`. -/
def Blocks.lookup : Blocks → Key → Option Nat
  | [], _ => none
  | (k', v) :: rest, k => if k' = k then some v else Blocks.lookup rest k

/-- Property write `state.blocks[k] = v`: overwrites in place or appends. -/
def Blocks.assign : Blocks → Key → Nat → Blocks
  | [], k, v => [(k, v)]
  | (k', v') :: rest, k, v =>
    if k' = k then (k, v) :: rest else (k', v') :: Blocks.assign rest k v

/-- Property removal `delete state.blocks[k]`. -/
def Blocks.delete (b : Blocks) (k : Key) : Blocks :=
  b.filter (fun e => decide (e.1 ≠ k))

/-- Number of keys, `Object.keys(state.blocks).length` of `updateInfo`. -/
def blockCount (b : Blocks) : Nat := b.length

/-- The bounds test of `setBlock`, true when the write is ignored. -/
def outOfBounds (x y z : Int) : Prop :=
  x < 0 ∨ x ≥ WORLD_SIZE ∨ z < 0 ∨ z ≥ WORLD_SIZE ∨ y < 0 ∨ y > WORLD_HEIGHT

instance (x y z : Int) : Decidable (outOfBounds x y z) := by
  unfold outOfBounds; infer_instance

/-- The map update of `setBlock(x,y,z,type)`. -/
def setBlock (blocks : Blocks) (x y z : Int) (type : Nat) : Blocks :=
  if outOfBounds x y z then blocks
  else if type = 0 then blocks.delete (keyFrom x y z)
  else blocks.assign (keyFrom x y z) type

/-- The read `getBlock(x,y,z)`: an absent key reads as air (0). -/
def getBlock (blocks : Blocks) (x y z : Int) : Nat :=
  match blocks.lookup (keyFrom x y z) with
  | none => 0
  | some t => t

/-! ## Block palette -/

/-- Names of the palette `BLOCK_TYPES`; the index of an entry is its id. -/
def BLOCK_TYPES : List String := ["Air", "Grass", "Dirt", "Stone", "Sand", "Wood"]

/-- A thrown JavaScript exception. -/
inductive JSError where
  | typeError
  | referenceError
  deriving DecidableEq

/-- The loop of `renderWorld()` over the keys of `state.blocks`.  The flag
`cubeGeo` tells whether the declaration `const cubeGeo` of line 142 has been
evaluated.  For each block `BLOCK_TYPES[type].color` throws a `TypeError` when
the type has no palette entry, and `new THREE.Mesh(cubeGeo, mat)` throws a
`ReferenceError` while `cubeGeo` is uninitialised. -/
def renderWorld (cubeGeo : Bool) : Blocks → Except JSError Unit
  | [] => Except.ok ()
  | (_, t) :: rest =>
    if (BLOCK_TYPES.get? t).isNone then Except.error JSError.typeError
    else if !cubeGeo then Except.error JSError.referenceError
    else renderWorld cubeGeo rest

/-! ## Terrain -/

/-- Height of a column: `2 + Math.floor(2*Math.sin(x/4) + 2*Math.cos(z/4))`. -/
noncomputable def columnHeight (x z : Int) : Int :=
  2 + ⌊2 * Real.sin ((x : ℝ) / 4) + 2 * Real.cos ((z : ℝ) / 4)⌋

/-- The loop `for(let y=0;y<=height;y++)` of `generateTerrain`: grass (1) at
`y === height`, dirt (2) below. -/
def fillColumn (blocks : Blocks) (x z height : Int) : Blocks :=
  (List.range (height + 1).toNat).foldl
    (fun b (y : Nat) => setBlock b x y z (if (y : Int) = height then 1 else 2)) blocks

/-- The stone patch of one column.  `draws` is the sequence of values returned
by `Math.random()` and `i` the number of draws consumed so far. -/
def stonePatch (draws : Nat → ℚ) (blocks : Blocks) (i : Nat) (x z : Int) : Blocks × Nat :=
  if draws i > 0.92 then (setBlock blocks x (⌊draws (i + 1) * 4⌋ + 3) z 3, i + 2)
  else (blocks, i + 1)

/-- The body of the `z` loop of `generateTerrain` for one column. -/
def terrainColumn (height : Int → Int → Int) (draws : Nat → ℚ) (acc : Blocks × Nat)
    (x z : Int) : Blocks × Nat :=
  stonePatch draws (fillColumn acc.1 x z (height x z)) acc.2 x z

/-- The `z` loop of `generateTerrain` for one value of `x`. -/
def terrainRow (height : Int → Int → Int) (draws : Nat → ℚ) (acc : Blocks × Nat)
    (x : Int) : Blocks × Nat :=
  (List.range WORLD_SIZE.toNat).foldl
    (fun a (z : Nat) => terrainColumn height draws a x z) acc

/-- The loops of `generateTerrain` over a given height function, starting from
`state.blocks = {}`. -/
def generateTerrainWith (height : Int → Int → Int) (draws : Nat → ℚ) : Blocks :=
  ((List.range WORLD_SIZE.toNat).foldl
    (fun a (x : Nat) => terrainRow height draws a x) (([] : Blocks), 0)).1

/-- The block map after `generateTerrain()`. -/
noncomputable def generateTerrain (draws : Nat → ℚ) : Blocks :=
  generateTerrainWith columnHeight draws

/-! ## Vectors -/

/-- A `THREE.Vector3` over exact numbers. -/
structure Vec3 where
  x : ℚ
  y : ℚ
  z : ℚ
  deriving DecidableEq

/-- Componentwise sum, `a.add(b)`. -/
def Vec3.add (a b : Vec3) : Vec3 := ⟨a.x + b.x, a.y + b.y, a.z + b.z⟩

/-- Scaling, `a.multiplyScalar(s)`. -/
def Vec3.multiplyScalar (a : Vec3) (s : ℚ) : Vec3 := ⟨a.x * s, a.y * s, a.z * s⟩

/-- JavaScript division of finite numbers: `none` stands for a non-finite
quotient (`Infinity`, `-Infinity` or `NaN`), which a zero divisor produces. -/
def jsDiv (a b : ℚ) : Option ℚ := if b = 0 then none else some (a / b)

/-! ## State -/

/-- The object `state.player`. -/
structure Player where
  x : ℚ
  y : ℚ
  z : ℚ
  velocityY : ℚ
  onGround : Bool
  deriving DecidableEq

/-- The global `state`.  `player = none` stands for `state.player` being
`null`; `upgrades = none` for `state.upgrades` being `undefined`.  The fields
`_velocity` and `player_collected`, which no modelled function reads, are
left out. -/
structure State where
  blocks : Blocks
  player : Option Player
  clickPower : ℚ
  autoClickers : ℚ
  selectedBlock : Nat
  rebirths : ℚ
  upgrades : Option (List ℚ)
  deriving DecidableEq

/-- The initial value of `state`. -/
def initialState : State :=
  { blocks := []
    player := some { x := 16, y := 14, z := 16, velocityY := 0, onGround := false }
    clickPower := 1
    autoClickers := 0
    selectedBlock := 1
    rebirths := 0
    upgrades := none }

/-! ## Pointer interactions -/

/-- The first intersection `intersects[0]`: the voxel in `hit.object.userData`
and the components of `hit.face.normal`. -/
structure Hit where
  x : Int
  y : Int
  z : Int
  nx : Int
  ny : Int
  nz : Int
  deriving DecidableEq

/-- The map update of `onPointerDown(e)`.  `locked` is `controls.isLocked`,
`button` is `e.button`, `intersects` the result of the raycaster, `origin` the
camera position and `dir` the camera world direction. -/
def onPointerDown (locked : Bool) (button : Int) (intersects : List Hit)
    (origin dir : Vec3) (selectedBlock : Nat) (blocks : Blocks) : Blocks :=
  if !locked then blocks
  else
    match intersects with
    | hit :: _ =>
      if button = 0 then setBlock blocks hit.x hit.y hit.z 0
      else if button = 2 then
        setBlock blocks (hit.x + hit.nx) (hit.y + hit.ny) (hit.z + hit.nz) selectedBlock
      else blocks
    | [] =>
      if button = 2 then
        match jsDiv (0 - origin.y) dir.y with
        | none => blocks
        | some t =>
          if 0 < t ∧ t < 20 then
            let pt := origin.add (dir.multiplyScalar t)
            let gx : Int := ⌊(pt.x + ((WORLD_SIZE : ℚ) / 2) * BLOCK_SIZE) / BLOCK_SIZE⌋
            let gz : Int := ⌊(pt.z + ((WORLD_SIZE : ℚ) / 2) * BLOCK_SIZE) / BLOCK_SIZE⌋
            setBlock blocks gx 1 gz selectedBlock
          else blocks
      else blocks

/-! ## Key and frame callbacks -/

/-- The flags of `move`. -/
structure Move where
  forward : Bool
  back : Bool
  left : Bool
  right : Bool
  jump : Bool
  deriving DecidableEq

/-- An assignment to a field of `move`, as in `move.forward = down`: it throws
a `ReferenceError` while the binding `let move` of line 205 is uninitialised
(`none`). -/
def assignMove (move : Option Move) (f : Move → Move) : Except JSError (Option Move) :=
  match move with
  | none => Except.error JSError.referenceError
  | some m => Except.ok (some (f m))

/-- The key handler `onKey(e, down)` of `setupMovement`, statement by
statement; `code` is `e.code` and `move` is the binding `let move`, `none`
while it is uninitialised.  The Space branch does not read `move`; with
`down` true it reads `state.player.onGround`, which throws a `TypeError` when
`state.player` is `null`.  Nothing is changed by a call that throws. -/
def onKey (move : Option Move) (code : String) (down : Bool) (s : State) :
    Except JSError (Option Move × State) := do
  let m1 ← if code = "KeyW" then assignMove move (fun m => { m with forward := down })
    else pure move
  let m2 ← if code = "KeyS" then assignMove m1 (fun m => { m with back := down })
    else pure m1
  let m3 ← if code = "KeyA" then assignMove m2 (fun m => { m with left := down })
    else pure m2
  let m4 ← if code = "KeyD" then assignMove m3 (fun m => { m with right := down })
    else pure m3
  if code = "Space" ∧ down = true then
    match s.player with
    | none => Except.error JSError.typeError
    | some p =>
      if p.onGround then
        pure (m4, { s with player := some { p with velocityY := 10, onGround := false } })
      else pure (m4, s)
  else pure (m4, s)

/-- The statements of `animate()` from line 231 on, for a frame in which
`lastTime` holds a value: given the clock `now`, the value of `lastTime`, the
camera position and the state, the thrown exception if any and the camera
position and state after the frame. -/
abbrev FrameBody := ℚ → ℚ → Vec3 → State → Option JSError × Vec3 × State

/-- One call of `animate()`: the thrown exception if any, and the camera
position and state after the call.  Line 229 re-schedules the next frame,
line 230 reads the clock `now`, and line 231 reads `lastTime`, the binding
`let lastTime` of line 227, `none` while it is uninitialised: that read throws
a `ReferenceError` before any statement of lines 234 to 267 has run, so the
camera and the state are as before the call.  The parameter `body` stands for
the rest of the frame once `lastTime` holds a value. -/
def animate (body : FrameBody) (lastTime : Option ℚ) (now : ℚ) (cam : Vec3) (s : State) :
    Option JSError × Vec3 × State :=
  match lastTime with
  | none => (some JSError.referenceError, cam, s)
  | some t => body now t cam s

/-- The module-level bindings declared below the calls of lines 34 and 35:
whether `const cubeGeo` (142) has been evaluated, and the values of
`let move` (205) and `let lastTime` (227), `none` while uninitialised. -/
structure Bindings where
  cubeGeo : Bool
  move : Option Move
  lastTime : Option ℚ
  deriving DecidableEq

/-- The bindings before any of the three declarations has been evaluated. -/
def Bindings.uninitialised : Bindings := { cubeGeo := false, move := none, lastTime := none }

/-- The bindings that every callback sees.  The script runs `init();
animate();` with the three bindings uninitialised; an exception thrown by
either call ends the script there, and the declarations of lines 142, 205 and
227 are evaluated only when both calls return.  `initThrows` tells whether
`init()` throws, `cam` and `s` are the camera position and state it leaves,
`now0` is the clock of the call of `animate` at line 35 and `now1` the clock
at line 227. -/
def scriptBindings (body : FrameBody) (initThrows : Bool) (now0 now1 : ℚ) (cam : Vec3)
    (s : State) : Bindings :=
  if initThrows then Bindings.uninitialised
  else
    match (animate body Bindings.uninitialised.lastTime now0 cam s).1 with
    | some _ => Bindings.uninitialised
    | none =>
      { cubeGeo := true
        move := some ⟨false, false, false, false, false⟩
        lastTime := some now1 }

/-- The relation between camera position and `state.player` that the
write-back of lines 265 to 267 (`keep camera pos in state`) sets up. -/
def cameraKeptInState (cam : Vec3) (p : Player) : Prop :=
  p.x = (cam.x + ((WORLD_SIZE : ℚ) / 2) * BLOCK_SIZE) / BLOCK_SIZE ∧
    p.y = cam.y / BLOCK_SIZE ∧
    p.z = (cam.z + ((WORLD_SIZE : ℚ) / 2) * BLOCK_SIZE) / BLOCK_SIZE

/-! ## Save and load -/

/-- A parsed JSON object holding (some of) the fields of `state`.  For every
field `none` means that the key is absent; for `blocks`, `player` and
`upgrades` the inner `none` is the JSON value `null`. -/
structure Snapshot where
  blocks : Option (Option Blocks)
  player : Option (Option Player)
  clickPower : Option ℚ
  autoClickers : Option ℚ
  selectedBlock : Option Nat
  rebirths : Option ℚ
  upgrades : Option (Option (List ℚ))
  deriving DecidableEq

/-- The value stored under `AUTO_SAVE_KEY`, classified by what
`localStorage.getItem` and `JSON.parse` make of it. -/
inductive Blob where
  /-- Case `getItem` returns `null` or the empty string. -/
  | absent
  /-- Case `JSON.parse(raw)` throws a `SyntaxError`. -/
  | garbage
  /-- Case `JSON.parse(raw)` is `null`, a number or a boolean. -/
  | nonObject
  /-- Case `JSON.parse(raw)` is the object `s`. -/
  | object (s : Snapshot)
  deriving DecidableEq

/-- The blob written by `saveToStorage()`: `JSON.stringify(state)`, read back
by `JSON.parse`.  A `null` player is written as `null`, an `undefined`
`upgrades` is left out. -/
def saveToStorage (s : State) : Blob :=
  Blob.object
    { blocks := some (some s.blocks)
      player := some s.player
      clickPower := some s.clickPower
      autoClickers := some s.autoClickers
      selectedBlock := some s.selectedBlock
      rebirths := some s.rebirths
      upgrades := s.upgrades.map some }

/-- The merge `Object.assign(state, s)` on the fields other than `blocks` and
`upgrades`, followed for these two by the backfill `if(!state.blocks)
state.blocks = {}` and `if(!state.upgrades) state.upgrades =
Array(100).fill(0)`. -/
def mergeSnapshot (s : State) (snap : Snapshot) : State :=
  let blocks1 : Option Blocks := match snap.blocks with
    | none => some s.blocks
    | some v => v
  let upgrades1 : Option (List ℚ) := match snap.upgrades with
    | none => s.upgrades
    | some v => v
  { blocks := blocks1.getD []
    player := match snap.player with
      | none => s.player
      | some v => v
    clickPower := snap.clickPower.getD s.clickPower
    autoClickers := snap.autoClickers.getD s.autoClickers
    selectedBlock := snap.selectedBlock.getD s.selectedBlock
    rebirths := snap.rebirths.getD s.rebirths
    upgrades := some (upgrades1.getD (List.replicate 100 0)) }

/-- The snapshot with no key, which `Object.assign` merges for a parsed value
that is not an object. -/
def Snapshot.empty : Snapshot :=
  { blocks := none, player := none, clickPower := none, autoClickers := none,
    selectedBlock := none, rebirths := none, upgrades := none }

/-- The statements of `loadFromStorage` after `JSON.parse`: merge, backfill,
`camera.position.set(state.player.x, Math.max(2,state.player.y),
state.player.z)` and `recalcWorldAfterLoad()`, inside the `try`; an exception
of `camera.position.set` (a `null` player) or of `renderWorld` is caught and
makes the call return false. -/
def loadParsed (cubeGeo : Bool) (snap : Snapshot) (cam : Vec3) (s : State) :
    Bool × Vec3 × State :=
  let s1 := mergeSnapshot s snap
  match s1.player with
  | none => (false, cam, s1)
  | some p =>
    let cam1 : Vec3 := ⟨p.x, max 2 p.y, p.z⟩
    match renderWorld cubeGeo s1.blocks with
    | Except.error _ => (false, cam1, s1)
    | Except.ok _ => (true, cam1, s1)

/-- The call `loadFromStorage()`: returned boolean, camera position and state
after the call.  The flag `cubeGeo` is passed on to `renderWorld`. -/
def loadFromStorage (cubeGeo : Bool) (blob : Blob) (cam : Vec3) (s : State) :
    Bool × Vec3 × State :=
  match blob with
  | Blob.absent => (false, cam, s)
  | Blob.garbage => (false, cam, s)
  | Blob.nonObject => loadParsed cubeGeo Snapshot.empty cam s
  | Blob.object snap => loadParsed cubeGeo snap cam s

/-! ## Lemmas on the block map -/

theorem Blocks.lookup_assign_same (b : Blocks) (k : Key) (v : Nat) :
    (b.assign k v).lookup k = some v := by
  induction b with
  | nil => simp [Blocks.assign, Blocks.lookup]
  | cons e rest ih =>
    obtain ⟨k', v'⟩ := e
    by_cases h : k' = k
    · simp [Blocks.assign, Blocks.lookup, h]
    · simp [Blocks.assign, Blocks.lookup, h, ih]

theorem Blocks.lookup_assign_other (b : Blocks) (k k2 : Key) (v : Nat) (h : k2 ≠ k) :
    (b.assign k v).lookup k2 = b.lookup k2 := by
  induction b with
  | nil => simp [Blocks.assign, Blocks.lookup, h.symm]
  | cons e rest ih =>
    obtain ⟨k', v'⟩ := e
    by_cases h1 : k' = k
    · subst h1
      simp [Blocks.assign, Blocks.lookup, h.symm]
    · by_cases h2 : k' = k2
      · subst h2
        simp [Blocks.assign, Blocks.lookup, h]
      · simp [Blocks.assign, Blocks.lookup, h1, h2, ih]

theorem Blocks.lookup_delete_same (b : Blocks) (k : Key) :
    (b.delete k).lookup k = none := by
  induction b with
  | nil => simp [Blocks.delete, Blocks.lookup]
  | cons e rest ih =>
    obtain ⟨k', v'⟩ := e
    by_cases h : k' = k
    · simpa [Blocks.delete, List.filter, h] using ih
    · simpa [Blocks.delete, List.filter, h, Blocks.lookup] using ih

theorem Blocks.lookup_delete_other (b : Blocks) (k k2 : Key) (h : k2 ≠ k) :
    (b.delete k).lookup k2 = b.lookup k2 := by
  induction b with
  | nil => simp [Blocks.delete, Blocks.lookup]
  | cons e rest ih =>
    obtain ⟨k', v'⟩ := e
    by_cases h1 : k' = k
    · subst h1
      simpa [Blocks.delete, List.filter, Blocks.lookup, h.symm] using ih
    · by_cases h2 : k' = k2
      · subst h2
        simp [Blocks.delete, List.filter, h, Blocks.lookup]
      · simpa [Blocks.delete, List.filter, h1, h2, Blocks.lookup] using ih

/-! ## Keys are injective -/

theorem digitChar_inj : ∀ a < 10, ∀ b < 10, digitChar a = digitChar b → a = b := by
  decide

theorem digitChar_ne_sep (d : Nat) : digitChar d ≠ ',' ∧ digitChar d ≠ '-' := by
  unfold digitChar
  split <;> decide

theorem map_digitChar_inj : ∀ (l1 l2 : List Nat), (∀ a ∈ l1, a < 10) → (∀ b ∈ l2, b < 10) →
    l1.map digitChar = l2.map digitChar → l1 = l2
  | [], [], _, _, _ => rfl
  | [], _ :: _, _, _, h => by simp at h
  | _ :: _, [], _, _, h => by simp at h
  | a :: l1, b :: l2, h1, h2, h => by
    simp only [List.map_cons, List.cons.injEq] at h
    have hab : a = b :=
      digitChar_inj a (h1 a (List.mem_cons_self _ _)) b (h2 b (List.mem_cons_self _ _)) h.1
    have hl : l1 = l2 :=
      map_digitChar_inj l1 l2 (fun c hc => h1 c (List.mem_cons_of_mem _ hc))
        (fun c hc => h2 c (List.mem_cons_of_mem _ hc)) h.2
    rw [hab, hl]

theorem natToString_ne_nil (n : Nat) : natToString n ≠ [] := by
  unfold natToString
  split
  · simp
  · rename_i h
    simp [Nat.digits_eq_nil_iff_eq_zero, h]

theorem natToString_no_sep (n : Nat) : ∀ c ∈ natToString n, c ≠ ',' ∧ c ≠ '-' := by
  intro c hc
  unfold natToString at hc
  split at hc
  · simp at hc
    subst hc
    decide
  · simp only [List.mem_reverse, List.mem_map] at hc
    obtain ⟨d, _, rfl⟩ := hc
    exact digitChar_ne_sep d

theorem natToString_zero_of_eq (m : Nat) (h : natToString m = ['0']) : m = 0 := by
  by_contra hm
  unfold natToString at h
  rw [if_neg hm] at h
  have h1 : (Nat.digits 10 m).map digitChar = [digitChar 0] := by
    have := congrArg List.reverse h
    simpa [digitChar] using this
  have h2 : Nat.digits 10 m = [0] :=
    map_digitChar_inj _ [0] (fun a ha => Nat.digits_lt_base (by norm_num) ha)
      (by simp) (by simpa using h1)
  have h3 := Nat.getLast_digit_ne_zero 10 hm
  simp [h2] at h3

theorem natToString_injective (n m : Nat) (h : natToString n = natToString m) : n = m := by
  by_cases hn : n = 0
  · subst hn
    have h0 : natToString 0 = ['0'] := by simp [natToString]
    rw [h0] at h
    exact (natToString_zero_of_eq m h.symm).symm
  · by_cases hm : m = 0
    · subst hm
      have h0 : natToString 0 = ['0'] := by simp [natToString]
      rw [h0] at h
      exact natToString_zero_of_eq n h
    · unfold natToString at h
      rw [if_neg hn, if_neg hm] at h
      have h1 := List.reverse_injective h
      have h2 := map_digitChar_inj _ _ (fun a ha => Nat.digits_lt_base (by norm_num) ha)
        (fun a ha => Nat.digits_lt_base (by norm_num) ha) h1
      exact Nat.digits.injective 10 h2

theorem intToString_no_comma (x : Int) : ∀ c ∈ intToString x, c ≠ ',' := by
  intro c hc
  cases x with
  | ofNat n => exact (natToString_no_sep n c hc).1
  | negSucc n =>
    simp only [intToString, List.mem_cons] at hc
    rcases hc with rfl | hc
    · decide
    · exact (natToString_no_sep _ c hc).1

theorem natToString_ne_minus (n m : Nat) : natToString n ≠ '-' :: natToString m := by
  intro h
  have hmem : '-' ∈ natToString n := by rw [h]; exact List.mem_cons_self _ _
  exact (natToString_no_sep n _ hmem).2 rfl

theorem intToString_injective (x y : Int) (h : intToString x = intToString y) : x = y := by
  cases x with
  | ofNat n =>
    cases y with
    | ofNat m =>
      have := natToString_injective n m (by simpa [intToString] using h)
      rw [this]
    | negSucc m =>
      exact absurd (by simpa [intToString] using h) (natToString_ne_minus n (m + 1))
  | negSucc n =>
    cases y with
    | ofNat m =>
      exact absurd (by simpa [intToString] using h.symm) (natToString_ne_minus m (n + 1))
    | negSucc m =>
      have h1 : natToString (n + 1) = natToString (m + 1) := by simpa [intToString] using h
      have := natToString_injective _ _ h1
      have h2 : n = m := by omega
      rw [h2]

theorem split_at_comma : ∀ (a a2 b b2 : List Char), (∀ c ∈ a, c ≠ ',') → (∀ c ∈ a2, c ≠ ',') →
    a ++ ',' :: b = a2 ++ ',' :: b2 → a = a2 ∧ b = b2
  | [], [], _, _, _, _, h => by simpa using h
  | [], c :: a2, _, _, _, h2, h => by
    simp only [List.nil_append, List.cons_append, List.cons.injEq] at h
    exact absurd h.1.symm (h2 c (List.mem_cons_self _ _))
  | c :: a, [], _, _, h1, _, h => by
    simp only [List.nil_append, List.cons_append, List.cons.injEq] at h
    exact absurd h.1 (h1 c (List.mem_cons_self _ _))
  | c :: a, d :: a2, b, b2, h1, h2, h => by
    simp only [List.cons_append, List.cons.injEq] at h
    have ih := split_at_comma a a2 b b2 (fun e he => h1 e (List.mem_cons_of_mem _ he))
      (fun e he => h2 e (List.mem_cons_of_mem _ he)) h.2
    exact ⟨by rw [h.1, ih.1], ih.2⟩

theorem keyFrom_inj (x y z x2 y2 z2 : Int) (h : keyFrom x y z = keyFrom x2 y2 z2) :
    x = x2 ∧ y = y2 ∧ z = z2 := by
  unfold keyFrom at h
  have h1 := split_at_comma _ _ _ _ (intToString_no_comma x) (intToString_no_comma x2) h
  have h2 := split_at_comma _ _ _ _ (intToString_no_comma y) (intToString_no_comma y2) h1.2
  exact ⟨intToString_injective _ _ h1.1, intToString_injective _ _ h2.1,
    intToString_injective _ _ h2.2⟩

theorem keyFrom_ne (x y z x2 y2 z2 : Int) (h : ¬ (x = x2 ∧ y = y2 ∧ z = z2)) :
    keyFrom x y z ≠ keyFrom x2 y2 z2 :=
  fun hk => h (keyFrom_inj _ _ _ _ _ _ hk)

/-- Sample keys: `keyFrom(1,2,3)` is `1,2,3` and `keyFrom(-1,0,12)` is
`-1,0,12`. -/
theorem keyFrom_samples :
    keyFrom 1 2 3 = ['1', ',', '2', ',', '3'] ∧
      keyFrom (-1) 0 12 = ['-', '1', ',', '0', ',', '1', '2'] := by
  constructor
  · show intToString (Int.ofNat 1) ++ ',' :: (intToString (Int.ofNat 2) ++ ',' ::
      intToString (Int.ofNat 3)) = _
    simp [intToString, natToString, digitChar]
  · show intToString (Int.negSucc 0) ++ ',' :: (intToString (Int.ofNat 0) ++ ',' ::
      intToString (Int.ofNat 12)) = _
    simp [intToString, natToString, digitChar]

/-! ## Reads after writes -/

theorem getBlock_setBlock_same (b : Blocks) (x y z : Int) (t : Nat)
    (hb : ¬ outOfBounds x y z) : getBlock (setBlock b x y z t) x y z = t := by
  unfold getBlock setBlock
  rw [if_neg hb]
  by_cases ht : t = 0
  · rw [if_pos ht, Blocks.lookup_delete_same, ht]
  · rw [if_neg ht, Blocks.lookup_assign_same]

theorem lookup_setBlock_other (b : Blocks) (x y z : Int) (t : Nat) (k : Key)
    (hk : k ≠ keyFrom x y z) : (setBlock b x y z t).lookup k = b.lookup k := by
  unfold setBlock
  split
  · rfl
  · split
    · exact Blocks.lookup_delete_other b _ k hk
    · exact Blocks.lookup_assign_other b _ k t hk

theorem getBlock_setBlock_other (b : Blocks) (x y z x2 y2 z2 : Int) (t : Nat)
    (h : ¬ (x2 = x ∧ y2 = y ∧ z2 = z)) :
    getBlock (setBlock b x y z t) x2 y2 z2 = getBlock b x2 y2 z2 := by
  unfold getBlock
  rw [lookup_setBlock_other b x y z t _ (keyFrom_ne _ _ _ _ _ _ h)]

theorem setBlock_outOfBounds (b : Blocks) (x y z : Int) (t : Nat) (h : outOfBounds x y z) :
    setBlock b x y z t = b := by
  unfold setBlock
  rw [if_pos h]

/-! ## The voxel grid contract -/

/-- C1: for every grid, every in-bounds integer coordinate and every block
type `t ≠ 0`, `getBlock` returns `t` after `setBlock(x,y,z,t)` and returns 0
after `setBlock(x,y,z,0)`. -/
theorem setBlock_then_getBlock (b : Blocks) (x y z : Int) (t : Nat)
    (hx : 0 ≤ x ∧ x < WORLD_SIZE) (hz : 0 ≤ z ∧ z < WORLD_SIZE)
    (hy : 0 ≤ y ∧ y ≤ WORLD_HEIGHT) (_ht : t ≠ 0) :
    getBlock (setBlock b x y z t) x y z = t ∧
      getBlock (setBlock b x y z 0) x y z = 0 := by
  have hb : ¬ outOfBounds x y z := by
    unfold outOfBounds
    omega
  exact ⟨getBlock_setBlock_same b x y z t hb, getBlock_setBlock_same b x y z 0 hb⟩

theorem setBlock_then_getBlock_witness :
    getBlock (setBlock [(keyFrom 0 0 0, 2)] 3 12 31 5) 3 12 31 = 5 ∧
      getBlock (setBlock [(keyFrom 0 0 0, 2)] 3 12 31 0) 3 12 31 = 0 :=
  setBlock_then_getBlock [(keyFrom 0 0 0, 2)] 3 12 31 5 (by decide) (by decide) (by decide)
    (by decide)

/-- C2: for every grid, every block type and every coordinate outside the
bounds, `setBlock` leaves the block map exactly as it was, so the number of
keys of `state.blocks` is unchanged. -/
theorem setBlock_out_of_bounds_noop (b : Blocks) (x y z : Int) (t : Nat)
    (h : x < 0 ∨ x ≥ WORLD_SIZE ∨ z < 0 ∨ z ≥ WORLD_SIZE ∨ y < 0 ∨ y > WORLD_HEIGHT) :
    setBlock b x y z t = b ∧ blockCount (setBlock b x y z t) = blockCount b := by
  have hs : setBlock b x y z t = b := setBlock_outOfBounds b x y z t h
  exact ⟨hs, by rw [hs]⟩

theorem setBlock_out_of_bounds_noop_witness :
    setBlock [(keyFrom 1 2 3, 4)] 5 13 7 3 = [(keyFrom 1 2 3, 4)] ∧
      blockCount (setBlock [(keyFrom 1 2 3, 4)] 5 13 7 3) = blockCount [(keyFrom 1 2 3, 4)] :=
  setBlock_out_of_bounds_noop [(keyFrom 1 2 3, 4)] 5 13 7 3 (by decide)

/-! ## Pointer interactions -/

/-- C4: for every grid, every hit voxel `(x,y,z)` and every axis-aligned unit
face normal `n`, a place interaction (button 2 with a hit; it is processed
when the pointer is locked) writes at exactly `(x,y,z)+n`, which differs from
`(x,y,z)` in exactly one axis by exactly one unit; the block of the hit voxel
is unchanged, every key other than that of `(x,y,z)+n` is unchanged, and
`(x,y,z)+n` reads as `state.selectedBlock` afterwards when it is in bounds. -/
theorem place_targets_adjacent_cell (locked : Bool) (blocks : Blocks) (selectedBlock : Nat)
    (origin dir : Vec3) (x y z nx ny nz : Int) (rest : List Hit)
    (hn : (nx, ny, nz) ∈
      [((1 : Int), (0 : Int), (0 : Int)), (-1, 0, 0), (0, 1, 0), (0, -1, 0), (0, 0, 1),
        (0, 0, -1)]) :
    (locked = true →
        onPointerDown locked 2 (⟨x, y, z, nx, ny, nz⟩ :: rest) origin dir selectedBlock blocks
          = setBlock blocks (x + nx) (y + ny) (z + nz) selectedBlock) ∧
      ((|x + nx - x| = 1 ∧ y + ny = y ∧ z + nz = z) ∨
        (x + nx = x ∧ |y + ny - y| = 1 ∧ z + nz = z) ∨
        (x + nx = x ∧ y + ny = y ∧ |z + nz - z| = 1)) ∧
      getBlock
          (onPointerDown locked 2 (⟨x, y, z, nx, ny, nz⟩ :: rest) origin dir selectedBlock
            blocks)
          x y z = getBlock blocks x y z ∧
      (∀ k : Key, k ≠ keyFrom (x + nx) (y + ny) (z + nz) →
        (onPointerDown locked 2 (⟨x, y, z, nx, ny, nz⟩ :: rest) origin dir selectedBlock
          blocks).lookup k = blocks.lookup k) ∧
      (locked = true → ¬ outOfBounds (x + nx) (y + ny) (z + nz) →
        getBlock
          (onPointerDown locked 2 (⟨x, y, z, nx, ny, nz⟩ :: rest) origin dir selectedBlock
            blocks)
          (x + nx) (y + ny) (z + nz) = selectedBlock) := by
  have hrun : onPointerDown true 2 (⟨x, y, z, nx, ny, nz⟩ :: rest) origin dir selectedBlock
      blocks = setBlock blocks (x + nx) (y + ny) (z + nz) selectedBlock := by
    simp [onPointerDown]
  have hidle : onPointerDown false 2 (⟨x, y, z, nx, ny, nz⟩ :: rest) origin dir selectedBlock
      blocks = blocks := by
    simp [onPointerDown]
  have hne : ¬ (x = x + nx ∧ y = y + ny ∧ z = z + nz) := by
    simp only [List.mem_cons, Prod.mk.injEq, List.mem_singleton, List.not_mem_nil,
      or_false] at hn
    omega
  have haxis : (|x + nx - x| = 1 ∧ y + ny = y ∧ z + nz = z) ∨
      (x + nx = x ∧ |y + ny - y| = 1 ∧ z + nz = z) ∨
      (x + nx = x ∧ y + ny = y ∧ |z + nz - z| = 1) := by
    simp only [List.mem_cons, Prod.mk.injEq, List.mem_singleton, List.not_mem_nil,
      or_false] at hn
    rcases hn with h | h | h | h | h | h <;> obtain ⟨rfl, rfl, rfl⟩ := h <;> simp
  cases locked
  · rw [hidle]
    refine ⟨fun h => absurd h (by decide), haxis, rfl, fun _ _ => rfl,
      fun h => absurd h (by decide)⟩
  · rw [hrun]
    refine ⟨fun _ => rfl, haxis, getBlock_setBlock_other blocks _ _ _ x y z selectedBlock hne,
      ?_, ?_⟩
    · intro k hk
      exact lookup_setBlock_other blocks _ _ _ selectedBlock k hk
    · intro _ hb
      exact getBlock_setBlock_same blocks _ _ _ selectedBlock hb

theorem place_targets_adjacent_cell_witness :
    onPointerDown true 2 [⟨16, 4, 16, 0, 1, 0⟩] ⟨0, 10, 0⟩ ⟨0, -1, 0⟩ 3 [(keyFrom 16 4 16, 1)]
        = setBlock [(keyFrom 16 4 16, 1)] (16 + 0) (4 + 1) (16 + 0) 3 ∧
      getBlock
          (onPointerDown true 2 [⟨16, 4, 16, 0, 1, 0⟩] ⟨0, 10, 0⟩ ⟨0, -1, 0⟩ 3
            [(keyFrom 16 4 16, 1)])
          16 4 16 = getBlock [(keyFrom 16 4 16, 1)] 16 4 16 ∧
      getBlock
          (onPointerDown true 2 [⟨16, 4, 16, 0, 1, 0⟩] ⟨0, 10, 0⟩ ⟨0, -1, 0⟩ 3
            [(keyFrom 16 4 16, 1)])
          (16 + 0) (4 + 1) (16 + 0) = 3 :=
  have h := place_targets_adjacent_cell true [(keyFrom 16 4 16, 1)] 3 ⟨0, 10, 0⟩ ⟨0, -1, 0⟩
    16 4 16 0 1 0 [] (by decide)
  ⟨h.1 rfl, h.2.2.1, h.2.2.2.2 rfl (by decide)⟩

/-- C5: when the ray intersects no voxel, the block map (hence the block
count) is unchanged (a) by every remove interaction (button 0) and (b) by
every place interaction (button 2) whose ray is degenerate for the ground
plane `y = 0`: `dir.y = 0`, or `t ≤ 0`, or `t ≥ 20`, where
`t = (0 - origin.y) / dir.y`. -/
theorem miss_leaves_grid_unchanged (locked : Bool) (origin dir : Vec3)
    (selectedBlock : Nat) (blocks : Blocks) :
    (onPointerDown locked 0 [] origin dir selectedBlock blocks = blocks ∧
        blockCount (onPointerDown locked 0 [] origin dir selectedBlock blocks)
          = blockCount blocks) ∧
      ((dir.y = 0 ∨ (0 - origin.y) / dir.y ≤ 0 ∨ 20 ≤ (0 - origin.y) / dir.y) →
        onPointerDown locked 2 [] origin dir selectedBlock blocks = blocks ∧
          blockCount (onPointerDown locked 2 [] origin dir selectedBlock blocks)
            = blockCount blocks) := by
  have ha : onPointerDown locked 0 [] origin dir selectedBlock blocks = blocks := by
    cases locked <;> simp [onPointerDown]
  refine ⟨⟨ha, by rw [ha]⟩, ?_⟩
  intro h
  have hb : onPointerDown locked 2 [] origin dir selectedBlock blocks = blocks := by
    cases locked
    · simp [onPointerDown]
    · by_cases hd : dir.y = 0
      · simp [onPointerDown, jsDiv, hd]
      · have ht : ¬ (0 < (0 - origin.y) / dir.y ∧ (0 - origin.y) / dir.y < 20) := by
          rcases h with h | h | h
          · exact absurd h hd
          · intro hc
            exact absurd hc.1 (not_lt.mpr h)
          · intro hc
            exact absurd hc.2 (not_lt.mpr h)
        rw [zero_sub] at ht
        simp only [onPointerDown, jsDiv, if_neg hd]
        simp only [zero_sub, if_neg ht]
        simp
  exact ⟨hb, by rw [hb]⟩

theorem miss_leaves_grid_unchanged_witness :
    onPointerDown true 0 [] ⟨0, 2, 0⟩ ⟨0, 1, 0⟩ 1 [(keyFrom 1 2 3, 4)] = [(keyFrom 1 2 3, 4)] ∧
      onPointerDown true 2 [] ⟨0, 2, 0⟩ ⟨0, 1, 0⟩ 1 [(keyFrom 1 2 3, 4)]
        = [(keyFrom 1 2 3, 4)] :=
  have h := miss_leaves_grid_unchanged true ⟨0, 2, 0⟩ ⟨0, 1, 0⟩ 1 [(keyFrom 1 2 3, 4)]
  ⟨h.1.1, (h.2 (by norm_num)).1⟩

/-! ## The bindings of the script -/

theorem animate_uninitialised (body : FrameBody) (now : ℚ) (cam : Vec3) (s : State) :
    animate body none now cam s = (some JSError.referenceError, cam, s) :=
  rfl

/-- The call of `animate` at line 35 throws, so the script never reaches the
declarations of `cubeGeo`, `move` and `lastTime`: whatever `init` does, every
callback runs with the three bindings uninitialised. -/
theorem scriptBindings_uninitialised (body : FrameBody) (initThrows : Bool) (now0 now1 : ℚ)
    (cam : Vec3) (s : State) :
    scriptBindings body initThrows now0 now1 cam s = Bindings.uninitialised := by
  cases initThrows <;> rfl

/-- Every call of `animate` in the script throws at line 231 and leaves the
camera position and the state as they were. -/
theorem animate_throws (body : FrameBody) (initThrows : Bool) (now0 now1 : ℚ) (cam0 : Vec3)
    (s0 : State) (now : ℚ) (cam : Vec3) (s : State) :
    animate body (scriptBindings body initThrows now0 now1 cam0 s0).lastTime now cam s
      = (some JSError.referenceError, cam, s) := by
  rw [scriptBindings_uninitialised]
  rfl

/-- With `move` uninitialised the handlers of the four movement keys throw. -/
theorem onKey_movement_uninitialised (down : Bool) (s : State) :
    onKey none "KeyW" down s = Except.error JSError.referenceError ∧
      onKey none "KeyS" down s = Except.error JSError.referenceError ∧
      onKey none "KeyA" down s = Except.error JSError.referenceError ∧
      onKey none "KeyD" down s = Except.error JSError.referenceError := by
  refine ⟨?_, ?_, ?_, ?_⟩ <;> simp [onKey, assignMove, bind, Except.bind, pure, Except.pure]

/-! ## Frames -/

/-- C6: resting contact is stable.  Every call of `animate` in the script
stops at line 231, where `lastTime` is read before its declaration has been
evaluated, and leaves the camera and the player untouched; so from
`onGround = true`, camera height `y = 2` and `velocityY = 0`, a frame at any
clock value (any elapsed time, any `dt`) and without jump ends with `y = 2`,
`velocityY = 0` and `onGround = true`. -/
theorem resting_contact_stable (body : FrameBody) (initThrows : Bool) (now0 now1 : ℚ)
    (cam0 : Vec3) (s0 : State) (now : ℚ) (cam : Vec3) (s : State) (p : Player)
    (hp : s.player = some p) (hy : cam.y = 2) (hv : p.velocityY = 0)
    (hg : p.onGround = true) :
    animate body (scriptBindings body initThrows now0 now1 cam0 s0).lastTime now cam s
        = (some JSError.referenceError, cam, s) ∧
      (animate body (scriptBindings body initThrows now0 now1 cam0 s0).lastTime now cam
        s).2.1.y = 2 ∧
      ∃ p2,
        (animate body (scriptBindings body initThrows now0 now1 cam0 s0).lastTime now cam
          s).2.2.player = some p2 ∧
        p2.velocityY = 0 ∧ p2.onGround = true := by
  rw [animate_throws]
  exact ⟨rfl, hy, p, hp, hv, hg⟩

theorem resting_contact_stable_witness :
    (animate (fun _ _ c st => (none, c, st))
        (scriptBindings (fun _ _ c st => (none, c, st)) false 0 0 ⟨16, 2, 16⟩
          { initialState with
            player := some { x := 16, y := 2, z := 16, velocityY := 0, onGround := true } }).lastTime
        100 ⟨16, 2, 16⟩
        { initialState with
          player := some { x := 16, y := 2, z := 16, velocityY := 0, onGround := true } }).2.1.y
      = 2 :=
  (resting_contact_stable (fun _ _ c st => (none, c, st)) false 0 0 ⟨16, 2, 16⟩
    { initialState with
      player := some { x := 16, y := 2, z := 16, velocityY := 0, onGround := true } }
    100 ⟨16, 2, 16⟩
    { initialState with
      player := some { x := 16, y := 2, z := 16, velocityY := 0, onGround := true } }
    { x := 16, y := 2, z := 16, velocityY := 0, onGround := true } rfl rfl rfl rfl).2.1

/-- C7 (amended): the jump contract.  A jump event (Space keydown) changes the
body only when `onGround` is true, in which case it sets `velocityY = 10` and
`onGround = false`; when `onGround` is false the state is unchanged.  This
holds whether or not the binding `move` is initialised. -/
theorem jump_contract (move : Option Move) (s : State) (p : Player)
    (hp : s.player = some p) :
    (p.onGround = true → onKey move "Space" true s =
        Except.ok (move, { s with player := some { p with velocityY := 10, onGround := false } })) ∧
      (p.onGround = false → onKey move "Space" true s = Except.ok (move, s)) := by
  constructor
  · intro hg
    simp [onKey, hp, hg, bind, Except.bind, pure, Except.pure]
  · intro hg
    simp [onKey, hp, hg, bind, Except.bind, pure, Except.pure]

theorem jump_contract_witness :
    onKey none "Space" true
        { initialState with
          player := some { x := 16, y := 2, z := 16, velocityY := 0, onGround := true } }
      = Except.ok (none,
          { initialState with
            player := some { x := 16, y := 2, z := 16, velocityY := 10, onGround := false } }) :=
  (jump_contract none
    { initialState with
      player := some { x := 16, y := 2, z := 16, velocityY := 0, onGround := true } }
    { x := 16, y := 2, z := 16, velocityY := 0, onGround := true } rfl).1 rfl

/-- C7 (counterexample): the stored snapshot holds a player resting on the
ground (`y = 2`, `velocityY = 0`, `onGround = true`) and no block, so `init`
loads it and returns with the camera at `(16,2,16)`.  The Space keydown sets
`velocityY = 10` and `onGround = false`.  The frame after the jump, at any
clock value, throws at line 231 and leaves the camera at `y = 2` with
`velocityY = 10`: the first step after the jump does not leave the ground. -/
theorem jump_then_frame_stays_on_ground :
    loadFromStorage false
        (Blob.object
          { Snapshot.empty with
            player := some
              (some { x := 16, y := 2, z := 16, velocityY := 0, onGround := true }) })
        ⟨16, 14, 16⟩ initialState
      = (true, ⟨16, 2, 16⟩,
          { initialState with
            player := some { x := 16, y := 2, z := 16, velocityY := 0, onGround := true },
            upgrades := some (List.replicate 100 0) }) ∧
      (∀ (body : FrameBody) (now0 now1 : ℚ),
        onKey (scriptBindings body false now0 now1 ⟨16, 2, 16⟩
              { initialState with
                player := some { x := 16, y := 2, z := 16, velocityY := 0, onGround := true },
                upgrades := some (List.replicate 100 0) }).move
            "Space" true
            { initialState with
              player := some { x := 16, y := 2, z := 16, velocityY := 0, onGround := true },
              upgrades := some (List.replicate 100 0) }
          = Except.ok (none,
              { initialState with
                player := some { x := 16, y := 2, z := 16, velocityY := 10, onGround := false },
                upgrades := some (List.replicate 100 0) })) ∧
      (∀ (body : FrameBody) (now0 now1 now : ℚ),
        animate body
            (scriptBindings body false now0 now1 ⟨16, 2, 16⟩
              { initialState with
                player := some { x := 16, y := 2, z := 16, velocityY := 0, onGround := true },
                upgrades := some (List.replicate 100 0) }).lastTime
            now ⟨16, 2, 16⟩
            { initialState with
              player := some { x := 16, y := 2, z := 16, velocityY := 10, onGround := false },
              upgrades := some (List.replicate 100 0) }
          = (some JSError.referenceError, ⟨16, 2, 16⟩,
              { initialState with
                player := some { x := 16, y := 2, z := 16, velocityY := 10, onGround := false },
                upgrades := some (List.replicate 100 0) })) ∧
      ¬ ((2 : ℚ) < (⟨16, 2, 16⟩ : Vec3).y) := by
  refine ⟨?_, ?_, ?_, ?_⟩
  · simp [loadFromStorage, loadParsed, mergeSnapshot, Snapshot.empty, initialState,
      renderWorld]
  · intro body now0 now1
    rw [scriptBindings_uninitialised]
    simp [onKey, Bindings.uninitialised, initialState, bind, Except.bind, pure, Except.pure]
  · intro body now0 now1 now
    rw [animate_throws]
  · norm_num

/-- C10 (amended): the `onGround` flag across one frame.  For every body
state and every clock value, the frame never clears the flag: afterwards
`onGround` either has the value it had before, or is true with `y = 2` and
`velocityY = 0`; a body with `onGround = true` keeps it.  Nothing is said on
whether the frame moves the body by `v' = velocityY - 30*dt` and
`y' = y + v'*dt`. -/
theorem ground_collision_flag (body : FrameBody) (initThrows : Bool) (now0 now1 : ℚ)
    (cam0 : Vec3) (s0 : State) (now : ℚ) (cam : Vec3) (s : State) (p : Player)
    (hp : s.player = some p) :
    ∃ p2,
      (animate body (scriptBindings body initThrows now0 now1 cam0 s0).lastTime now cam
        s).2.2.player = some p2 ∧
      (p2.onGround = p.onGround ∨
        (p2.onGround = true ∧
          (animate body (scriptBindings body initThrows now0 now1 cam0 s0).lastTime now cam
            s).2.1.y = 2 ∧
          p2.velocityY = 0)) ∧
      (p.onGround = true → p2.onGround = true) := by
  rw [animate_throws]
  exact ⟨p, hp, Or.inl rfl, fun h => h⟩

theorem ground_collision_flag_witness :
    ∃ p2,
      (animate (fun _ _ c st => (none, c, st))
        (scriptBindings (fun _ _ c st => (none, c, st)) false 0 0 ⟨16, 14, 16⟩
          initialState).lastTime
        50 ⟨16, 14, 16⟩ initialState).2.2.player = some p2 ∧
      p2.onGround = false := by
  obtain ⟨p2, h1, h2, _⟩ := ground_collision_flag (fun _ _ c st => (none, c, st)) false 0 0
    ⟨16, 14, 16⟩ initialState 50 ⟨16, 14, 16⟩ initialState
    { x := 16, y := 14, z := 16, velocityY := 0, onGround := false } rfl
  refine ⟨p2, h1, ?_⟩
  rcases h2 with h | h
  · exact h
  · rw [animate_throws] at h1
    have hp2 : p2 = { x := 16, y := 14, z := 16, velocityY := 0, onGround := false } := by
      simpa [initialState] using h1.symm
    rw [hp2] at h
    exact absurd h.1 (by decide)

/-- C10 (counterexample): the stored snapshot holds a body above the ground
with the flag set (`y = 10`, `velocityY = 0`, `onGround = true`) and no block,
so `init` loads it and returns with the camera at `(16,10,16)`.  For
`dt = 0.05` the claim gives `y' = 10 + (0 - 30*0.05)*0.05 = 397/40 > 2`, hence
`y = 397/40`, `velocityY = -3/2` and `onGround = false` after the step.  The
frame, at any clock value, ends with `y = 10`, `velocityY = 0` and `onGround`
still true. -/
theorem ground_collision_keeps_flag :
    loadFromStorage false
        (Blob.object
          { Snapshot.empty with
            player := some
              (some { x := 16, y := 10, z := 16, velocityY := 0, onGround := true }) })
        ⟨16, 14, 16⟩ initialState
      = (true, ⟨16, 10, 16⟩,
          { initialState with
            player := some { x := 16, y := 10, z := 16, velocityY := 0, onGround := true },
            upgrades := some (List.replicate 100 0) }) ∧
      (∀ (body : FrameBody) (now0 now1 now : ℚ),
        animate body
            (scriptBindings body false now0 now1 ⟨16, 10, 16⟩
              { initialState with
                player := some { x := 16, y := 10, z := 16, velocityY := 0, onGround := true },
                upgrades := some (List.replicate 100 0) }).lastTime
            now ⟨16, 10, 16⟩
            { initialState with
              player := some { x := 16, y := 10, z := 16, velocityY := 0, onGround := true },
              upgrades := some (List.replicate 100 0) }
          = (some JSError.referenceError, ⟨16, 10, 16⟩,
              { initialState with
                player := some { x := 16, y := 10, z := 16, velocityY := 0, onGround := true },
                upgrades := some (List.replicate 100 0) })) ∧
      ¬ ((10 : ℚ) + (0 - 30 * 0.05) * 0.05 ≤ 2) ∧
      (10 : ℚ) ≠ 10 + (0 - 30 * 0.05) * 0.05 ∧ (0 : ℚ) ≠ 0 - 30 * 0.05 ∧
      (true : Bool) ≠ false := by
  refine ⟨?_, ?_, ?_, ?_, ?_, ?_⟩
  · norm_num [loadFromStorage, loadParsed, mergeSnapshot, Snapshot.empty, initialState,
      renderWorld]
  · intro body now0 now1 now
    rw [animate_throws]
  · norm_num
  · norm_num
  · norm_num
  · decide

/-! ## Save and load -/

theorem loadFromStorage_absent (cubeGeo : Bool) (cam : Vec3) (s : State) :
    loadFromStorage cubeGeo Blob.absent cam s = (false, cam, s) ∧
      loadFromStorage cubeGeo Blob.garbage cam s = (false, cam, s) :=
  ⟨rfl, rfl⟩

/-- The merge of a saved state: whatever `loadFromStorage` returns, the live
state holds the saved player afterwards, and the camera is at the saved
player position (with `y` raised to 2 at least). -/
theorem load_save (cubeGeo : Bool) (s live : State) (cam : Vec3) (p : Player)
    (hp : s.player = some p) :
    (loadFromStorage cubeGeo (saveToStorage s) cam live).2.1 = ⟨p.x, max 2 p.y, p.z⟩ ∧
      (loadFromStorage cubeGeo (saveToStorage s) cam live).2.2.player = some p ∧
      (loadFromStorage cubeGeo (saveToStorage s) cam live).2.2.blocks = s.blocks := by
  simp only [loadFromStorage, saveToStorage, loadParsed, mergeSnapshot, hp]
  split <;> simp

/-- After loading a saved state the camera is never at the position that the
write-back of lines 265 to 267 pairs with the restored player: it is off by
`WORLD_SIZE/2` in `x` and in `z`. -/
theorem load_never_mirrors (cubeGeo : Bool) (s live : State) (cam : Vec3) (p : Player)
    (hp : s.player = some p) :
    ¬ cameraKeptInState (loadFromStorage cubeGeo (saveToStorage s) cam live).2.1 p := by
  rw [(load_save cubeGeo s live cam p hp).1]
  intro h
  have hx := h.1
  norm_num [WORLD_SIZE, BLOCK_SIZE] at hx

/-- C8 (failing input): for the parseable blob with `player` set to `null`,
`loadFromStorage` returns false only after the merge: the live state is left
with `player = null` and a backfilled `upgrades`, it differs from the state
before the call, the next Space keydown throws a `TypeError` on
`state.player.onGround`, and the next frame of `animate` throws.  A missing or
unparseable blob does leave the state untouched. -/
theorem loadFromStorage_null_player (cubeGeo : Bool) :
    loadFromStorage cubeGeo (Blob.object { Snapshot.empty with player := some none })
        ⟨16, 14, 16⟩ initialState
      = (false, ⟨16, 14, 16⟩,
          { initialState with player := none, upgrades := some (List.replicate 100 0) }) ∧
      (loadFromStorage cubeGeo (Blob.object { Snapshot.empty with player := some none })
        ⟨16, 14, 16⟩ initialState).2.2 ≠ initialState ∧
      onKey none "Space" true
          (loadFromStorage cubeGeo (Blob.object { Snapshot.empty with player := some none })
            ⟨16, 14, 16⟩ initialState).2.2
        = Except.error JSError.typeError ∧
      (∀ (body : FrameBody) (now : ℚ),
        (animate body Bindings.uninitialised.lastTime now ⟨16, 14, 16⟩
          (loadFromStorage cubeGeo (Blob.object { Snapshot.empty with player := some none })
            ⟨16, 14, 16⟩ initialState).2.2).1 = some JSError.referenceError) ∧
      loadFromStorage cubeGeo Blob.absent ⟨16, 14, 16⟩ initialState
        = (false, ⟨16, 14, 16⟩, initialState) ∧
      loadFromStorage cubeGeo Blob.garbage ⟨16, 14, 16⟩ initialState
        = (false, ⟨16, 14, 16⟩, initialState) := by
  have h : loadFromStorage cubeGeo (Blob.object { Snapshot.empty with player := some none })
      ⟨16, 14, 16⟩ initialState
      = (false, ⟨16, 14, 16⟩,
          { initialState with player := none, upgrades := some (List.replicate 100 0) }) := by
    rfl
  refine ⟨h, ?_, ?_, ?_, rfl, rfl⟩
  · rw [h]
    intro hc
    have := congrArg State.player hc
    simp [initialState] at this
  · rw [h]
    simp [onKey, bind, Except.bind, pure, Except.pure]
  · intro body now
    rfl

/-- C9 (failing input): the saved state has the player at `x = z = 16`,
`y = 2`, which the write-back of lines 265 to 267 pairs with the camera
position `(0,2,0)`.  Loading it puts the camera at `(16,2,16)`, a position
that this write-back pairs with `player.x = player.z = 32`: the camera is not
at the pose that mirrors the restored player.  The frame after the load
throws at line 231, so `state.player` itself keeps `x = z = 16`. -/
theorem load_camera_not_mirrored (body : FrameBody) (now0 now1 now : ℚ) :
    loadFromStorage false
        (saveToStorage
          { initialState with
            player := some { x := 16, y := 2, z := 16, velocityY := 0, onGround := true } })
        ⟨16, 14, 16⟩ initialState
      = (true, ⟨16, 2, 16⟩,
          { initialState with
            player := some { x := 16, y := 2, z := 16, velocityY := 0, onGround := true },
            upgrades := some (List.replicate 100 0) }) ∧
      cameraKeptInState ⟨0, 2, 0⟩
        { x := 16, y := 2, z := 16, velocityY := 0, onGround := true } ∧
      ¬ cameraKeptInState ⟨16, 2, 16⟩
        { x := 16, y := 2, z := 16, velocityY := 0, onGround := true } ∧
      cameraKeptInState ⟨16, 2, 16⟩
        { x := 32, y := 2, z := 32, velocityY := 0, onGround := true } ∧
      animate body
          (scriptBindings body false now0 now1 ⟨16, 2, 16⟩
            { initialState with
              player := some { x := 16, y := 2, z := 16, velocityY := 0, onGround := true },
              upgrades := some (List.replicate 100 0) }).lastTime
          now ⟨16, 2, 16⟩
          { initialState with
            player := some { x := 16, y := 2, z := 16, velocityY := 0, onGround := true },
            upgrades := some (List.replicate 100 0) }
        = (some JSError.referenceError, ⟨16, 2, 16⟩,
            { initialState with
              player := some { x := 16, y := 2, z := 16, velocityY := 0, onGround := true },
              upgrades := some (List.replicate 100 0) }) := by
  refine ⟨?_, ?_, ?_, ?_, ?_⟩
  · simp [loadFromStorage, saveToStorage, loadParsed, mergeSnapshot, initialState,
      renderWorld]
  · norm_num [cameraKeptInState, WORLD_SIZE, BLOCK_SIZE]
  · norm_num [cameraKeptInState, WORLD_SIZE, BLOCK_SIZE]
  · norm_num [cameraKeptInState, WORLD_SIZE, BLOCK_SIZE]
  · rw [animate_throws]

/-! ## Terrain -/

theorem columnHeight_bounds (x z : Int) : -2 ≤ columnHeight x z ∧ columnHeight x z ≤ 6 := by
  unfold columnHeight
  have hs1 := Real.neg_one_le_sin ((x : ℝ) / 4)
  have hs2 := Real.sin_le_one ((x : ℝ) / 4)
  have hc1 := Real.neg_one_le_cos ((z : ℝ) / 4)
  have hc2 := Real.cos_le_one ((z : ℝ) / 4)
  have h1 : (-4 : Int) ≤ ⌊2 * Real.sin ((x : ℝ) / 4) + 2 * Real.cos ((z : ℝ) / 4)⌋ := by
    apply Int.le_floor.mpr
    push_cast
    linarith
  have h2 : ⌊2 * Real.sin ((x : ℝ) / 4) + 2 * Real.cos ((z : ℝ) / 4)⌋ ≤ (4 : Int) := by
    have hfl := Int.floor_le (2 * Real.sin ((x : ℝ) / 4) + 2 * Real.cos ((z : ℝ) / 4))
    have h3 : ((⌊2 * Real.sin ((x : ℝ) / 4) + 2 * Real.cos ((z : ℝ) / 4)⌋ : Int) : ℝ)
        ≤ ((4 : Int) : ℝ) := by
      push_cast
      linarith
    exact_mod_cast h3
  constructor <;> omega

theorem columnHeight_origin : columnHeight 0 0 = 4 := by
  simp [columnHeight]

/-- The value `2*sin(4) + 2*cos(4)` lies in `[-3, -2)` (it is about -2.82). -/
theorem sin_add_cos_four :
    -3 ≤ 2 * Real.sin 4 + 2 * Real.cos 4 ∧ 2 * Real.sin 4 + 2 * Real.cos 4 < -2 := by
  have hpi3 := Real.pi_gt_three
  have hpi4 := Real.pi_lt_four
  have hs : Real.sin (4 - Real.pi) = -Real.sin 4 := Real.sin_sub_pi 4
  have hc : Real.cos (4 - Real.pi) = -Real.cos 4 := Real.cos_sub_pi 4
  have hsp : 0 < Real.sin (4 - Real.pi) :=
    Real.sin_pos_of_pos_of_lt_pi (by linarith) (by linarith)
  have hcp : 0 < Real.cos (4 - Real.pi) :=
    Real.cos_pos_of_mem_Ioo ⟨by linarith, by linarith⟩
  have hsq := Real.sin_sq_add_cos_sq (4 - Real.pi)
  rw [hs] at hsp hsq
  rw [hc] at hcp hsq
  constructor
  · nlinarith [sq_nonneg (Real.sin 4 - Real.cos 4), sq_nonneg (Real.sin 4 + Real.cos 4 + 3 / 2)]
  · nlinarith [mul_pos hsp hcp]

/-- The column `(16,16)` has height `2 + floor(2*sin(4) + 2*cos(4)) = -1`. -/
theorem columnHeight_16_16 : columnHeight 16 16 = -1 := by
  have h := sin_add_cos_four
  have hf : ⌊2 * Real.sin 4 + 2 * Real.cos 4⌋ = -3 := by
    rw [Int.floor_eq_iff]
    constructor
    · push_cast
      exact h.1
    · push_cast
      linarith [h.2]
  unfold columnHeight
  have e : (((16 : Int) : ℝ) / 4) = 4 := by norm_num
  rw [e, hf]
  norm_num

theorem stonePatch_none (draws : Nat → ℚ) (hd : ∀ i, draws i ≤ 0.92) (b : Blocks) (i : Nat)
    (x z : Int) : stonePatch draws b i x z = (b, i + 1) := by
  unfold stonePatch
  rw [if_neg (not_lt.mpr (hd i))]

/-- Reads after a loop over `0 .. n-1` whose step `k` overwrites the cells of a
region `R k` with a value that depends on the cell only. -/
theorem fold_range_getBlock {α : Type} (g : α → Blocks) (f : α → Nat → α)
    (R : Nat → Int → Int → Int → Prop) (V : Int → Int → Int → Nat)
    (hstep : ∀ (a : α) (k : Nat) (x y z : Int),
      (R k x y z → getBlock (g (f a k)) x y z = V x y z) ∧
        (¬ R k x y z → getBlock (g (f a k)) x y z = getBlock (g a) x y z))
    (a : α) (x y z : Int) : ∀ n : Nat,
    ((∃ k, k < n ∧ R k x y z) → getBlock (g ((List.range n).foldl f a)) x y z = V x y z) ∧
      (¬ (∃ k, k < n ∧ R k x y z) →
        getBlock (g ((List.range n).foldl f a)) x y z = getBlock (g a) x y z)
  | 0 => by
    constructor
    · rintro ⟨k, hk, _⟩
      exact absurd hk (Nat.not_lt_zero k)
    · intro _
      rfl
  | n + 1 => by
    have ih := fold_range_getBlock g f R V hstep a x y z n
    rw [List.range_succ, List.foldl_append, List.foldl_cons, List.foldl_nil]
    constructor
    · rintro ⟨k, hk, hR⟩
      by_cases hn : R n x y z
      · exact (hstep _ n x y z).1 hn
      · rw [(hstep _ n x y z).2 hn]
        apply ih.1
        refine ⟨k, ?_, hR⟩
        rcases Nat.lt_succ_iff_lt_or_eq.mp hk with h | h
        · exact h
        · subst h
          exact absurd hR hn
    · intro hno
      have hn : ¬ R n x y z := fun h => hno ⟨n, Nat.lt_succ_self n, h⟩
      rw [(hstep _ n x y z).2 hn]
      apply ih.2
      rintro ⟨k, hk, hR⟩
      exact hno ⟨k, Nat.lt_succ_of_lt hk, hR⟩

theorem fillColumn_getBlock (b : Blocks) (x z h x2 y2 z2 : Int) :
    ((x2 = x ∧ z2 = z ∧ y2 ≤ h ∧ ¬ outOfBounds x y2 z) →
        getBlock (fillColumn b x z h) x2 y2 z2 = if y2 = h then 1 else 2) ∧
      (¬ (x2 = x ∧ z2 = z ∧ y2 ≤ h ∧ ¬ outOfBounds x y2 z) →
        getBlock (fillColumn b x z h) x2 y2 z2 = getBlock b x2 y2 z2) := by
  have hfold := fold_range_getBlock (fun b : Blocks => b)
    (fun b (y : Nat) => setBlock b x y z (if (y : Int) = h then 1 else 2))
    (fun k x3 y3 z3 => x3 = x ∧ y3 = (k : Int) ∧ z3 = z ∧ ¬ outOfBounds x y3 z)
    (fun _ y3 _ => if y3 = h then 1 else 2)
    (by
      intro a k x3 y3 z3
      constructor
      · rintro ⟨rfl, rfl, rfl, hb⟩
        exact getBlock_setBlock_same a _ _ _ _ hb
      · intro hR
        beta_reduce at hR ⊢
        by_cases hb : outOfBounds x (k : Int) z
        · rw [setBlock_outOfBounds a x k z _ hb]
        · apply getBlock_setBlock_other
          rintro ⟨rfl, rfl, rfl⟩
          exact hR ⟨rfl, rfl, rfl, hb⟩)
    b x2 y2 z2 (h + 1).toNat
  have hiff : (∃ k, k < (h + 1).toNat ∧ (x2 = x ∧ y2 = (k : Int) ∧ z2 = z ∧
      ¬ outOfBounds x y2 z)) ↔ (x2 = x ∧ z2 = z ∧ y2 ≤ h ∧ ¬ outOfBounds x y2 z) := by
    constructor
    · rintro ⟨k, hk, hx, hy, hz, hb⟩
      refine ⟨hx, hz, ?_, hb⟩
      omega
    · rintro ⟨hx, hz, hy, hb⟩
      have h0 : 0 ≤ y2 := by
        unfold outOfBounds at hb
        omega
      exact ⟨y2.toNat, by omega, hx, by omega, hz, hb⟩
  unfold fillColumn
  rw [← hiff]
  exact hfold

theorem terrainColumn_getBlock (height : Int → Int → Int) (draws : Nat → ℚ)
    (hd : ∀ i, draws i ≤ 0.92) (acc : Blocks × Nat) (x z x2 y2 z2 : Int) :
    ((x2 = x ∧ z2 = z ∧ y2 ≤ height x z ∧ ¬ outOfBounds x y2 z) →
        getBlock (terrainColumn height draws acc x z).1 x2 y2 z2
          = if y2 = height x2 z2 then 1 else 2) ∧
      (¬ (x2 = x ∧ z2 = z ∧ y2 ≤ height x z ∧ ¬ outOfBounds x y2 z) →
        getBlock (terrainColumn height draws acc x z).1 x2 y2 z2 = getBlock acc.1 x2 y2 z2) := by
  unfold terrainColumn
  rw [stonePatch_none draws hd]
  have h := fillColumn_getBlock acc.1 x z (height x z) x2 y2 z2
  constructor
  · intro hc
    rw [h.1 hc, hc.1, hc.2.1]
  · exact h.2

theorem terrainRow_getBlock (height : Int → Int → Int) (draws : Nat → ℚ)
    (hd : ∀ i, draws i ≤ 0.92) (acc : Blocks × Nat) (x x2 y2 z2 : Int) :
    ((x2 = x ∧ y2 ≤ height x z2 ∧ ¬ outOfBounds x y2 z2) →
        getBlock (terrainRow height draws acc x).1 x2 y2 z2
          = if y2 = height x2 z2 then 1 else 2) ∧
      (¬ (x2 = x ∧ y2 ≤ height x z2 ∧ ¬ outOfBounds x y2 z2) →
        getBlock (terrainRow height draws acc x).1 x2 y2 z2 = getBlock acc.1 x2 y2 z2) := by
  have hfold := fold_range_getBlock (fun a : Blocks × Nat => a.1)
    (fun a (z : Nat) => terrainColumn height draws a x z)
    (fun k x3 y3 z3 => x3 = x ∧ z3 = (k : Int) ∧ y3 ≤ height x k ∧ ¬ outOfBounds x y3 k)
    (fun x3 y3 z3 => if y3 = height x3 z3 then 1 else 2)
    (fun a k x3 y3 z3 => terrainColumn_getBlock height draws hd a x k x3 y3 z3)
    acc x2 y2 z2 WORLD_SIZE.toNat
  have hiff : (∃ k, k < WORLD_SIZE.toNat ∧ (x2 = x ∧ z2 = (k : Int) ∧ y2 ≤ height x k ∧
      ¬ outOfBounds x y2 k)) ↔ (x2 = x ∧ y2 ≤ height x z2 ∧ ¬ outOfBounds x y2 z2) := by
    constructor
    · rintro ⟨k, _, hx, rfl, hy, hb⟩
      exact ⟨hx, hy, hb⟩
    · rintro ⟨hx, hy, hb⟩
      have hz : 0 ≤ z2 ∧ z2 < 32 := by
        unfold outOfBounds WORLD_SIZE at hb
        omega
      have hk : ((z2.toNat : Nat) : Int) = z2 := by omega
      refine ⟨z2.toNat, ?_, hx, hk.symm, ?_, ?_⟩
      · unfold WORLD_SIZE
        omega
      · rw [hk]
        exact hy
      · rw [hk]
        exact hb
  unfold terrainRow
  rw [← hiff]
  exact hfold

/-- The cells of the generated terrain when no stone is placed: an in-bounds
cell at or below the height of its column holds grass at the top and dirt
below, every other cell is empty. -/
theorem generateTerrainWith_getBlock (height : Int → Int → Int) (draws : Nat → ℚ)
    (hd : ∀ i, draws i ≤ 0.92) (x y z : Int) :
    ((y ≤ height x z ∧ ¬ outOfBounds x y z) →
        getBlock (generateTerrainWith height draws) x y z = if y = height x z then 1 else 2) ∧
      (¬ (y ≤ height x z ∧ ¬ outOfBounds x y z) →
        getBlock (generateTerrainWith height draws) x y z = 0) := by
  have hfold := fold_range_getBlock (fun a : Blocks × Nat => a.1)
    (fun a (k : Nat) => terrainRow height draws a k)
    (fun k x3 y3 z3 => x3 = (k : Int) ∧ y3 ≤ height k z3 ∧ ¬ outOfBounds k y3 z3)
    (fun x3 y3 z3 => if y3 = height x3 z3 then 1 else 2)
    (fun a k x3 y3 z3 => terrainRow_getBlock height draws hd a k x3 y3 z3)
    (([] : Blocks), 0) x y z WORLD_SIZE.toNat
  have hiff : (∃ k, k < WORLD_SIZE.toNat ∧ (x = (k : Int) ∧ y ≤ height k z ∧
      ¬ outOfBounds k y z)) ↔ (y ≤ height x z ∧ ¬ outOfBounds x y z) := by
    constructor
    · rintro ⟨k, _, rfl, hy, hb⟩
      exact ⟨hy, hb⟩
    · rintro ⟨hy, hb⟩
      have hx : 0 ≤ x ∧ x < 32 := by
        unfold outOfBounds WORLD_SIZE at hb
        omega
      have hk : ((x.toNat : Nat) : Int) = x := by omega
      refine ⟨x.toNat, ?_, hk.symm, ?_, ?_⟩
      · unfold WORLD_SIZE
        omega
      · rw [hk]
        exact hy
      · rw [hk]
        exact hb
  unfold generateTerrainWith
  rw [← hiff]
  exact hfold

/-! ### Keys stay distinct -/

theorem mem_keys_assign (b : Blocks) (k : Key) (v : Nat) (a : Key)
    (h : a ∈ (b.assign k v).map Prod.fst) : a = k ∨ a ∈ b.map Prod.fst := by
  induction b with
  | nil =>
    simp [Blocks.assign] at h
    exact Or.inl h
  | cons e rest ih =>
    obtain ⟨k', v'⟩ := e
    by_cases hk : k' = k
    · simp only [Blocks.assign, if_pos hk, List.map_cons, List.mem_cons] at h
      rcases h with h | h
      · exact Or.inl h
      · exact Or.inr (List.mem_cons_of_mem _ h)
    · simp only [Blocks.assign, if_neg hk, List.map_cons, List.mem_cons] at h
      rcases h with h | h
      · exact Or.inr (by rw [h]; exact List.mem_cons_self _ _)
      · rcases ih h with h2 | h2
        · exact Or.inl h2
        · exact Or.inr (List.mem_cons_of_mem _ h2)

theorem assign_keys_nodup (b : Blocks) (k : Key) (v : Nat) (h : (b.map Prod.fst).Nodup) :
    ((b.assign k v).map Prod.fst).Nodup := by
  induction b with
  | nil => simp [Blocks.assign]
  | cons e rest ih =>
    obtain ⟨k', v'⟩ := e
    simp only [List.map_cons, List.nodup_cons] at h
    by_cases hk : k' = k
    · simp only [Blocks.assign, if_pos hk, List.map_cons, List.nodup_cons]
      rw [← hk]
      exact h
    · simp only [Blocks.assign, if_neg hk, List.map_cons, List.nodup_cons]
      refine ⟨?_, ih h.2⟩
      intro hmem
      rcases mem_keys_assign rest k v k' hmem with h2 | h2
      · exact hk h2
      · exact h.1 h2

theorem delete_keys_nodup (b : Blocks) (k : Key) (h : (b.map Prod.fst).Nodup) :
    ((b.delete k).map Prod.fst).Nodup :=
  List.Nodup.sublist (List.Sublist.map Prod.fst (List.filter_sublist b)) h

theorem setBlock_keys_nodup (b : Blocks) (x y z : Int) (t : Nat)
    (h : (b.map Prod.fst).Nodup) : ((setBlock b x y z t).map Prod.fst).Nodup := by
  unfold setBlock
  split
  · exact h
  · split
    · exact delete_keys_nodup b _ h
    · exact assign_keys_nodup b _ _ h

theorem foldl_preserves {α β : Type} (P : α → Prop) (f : α → β → α)
    (hf : ∀ a b, P a → P (f a b)) : ∀ (l : List β) (a : α), P a → P (l.foldl f a)
  | [], _, ha => ha
  | b :: l, a, ha => foldl_preserves P f hf l (f a b) (hf a b ha)

theorem generateTerrainWith_keys_nodup (height : Int → Int → Int) (draws : Nat → ℚ) :
    ((generateTerrainWith height draws).map Prod.fst).Nodup := by
  unfold generateTerrainWith
  apply foldl_preserves (fun a : Blocks × Nat => (a.1.map Prod.fst).Nodup)
  · intro a x ha
    unfold terrainRow
    apply foldl_preserves (fun a : Blocks × Nat => (a.1.map Prod.fst).Nodup) _ _ _ _ ha
    intro a2 z ha2
    unfold terrainColumn stonePatch
    have hfill : ((fillColumn a2.1 x z (height x z)).map Prod.fst).Nodup := by
      unfold fillColumn
      apply foldl_preserves (fun b : Blocks => (b.map Prod.fst).Nodup) _ _ _ _ ha2
      intro b y hb
      exact setBlock_keys_nodup b _ _ _ _ hb
    split
    · exact setBlock_keys_nodup _ _ _ _ _ hfill
    · exact hfill
  · exact List.nodup_nil

theorem count_delete (b : Blocks) (k : Key) (v : Nat) (hn : (b.map Prod.fst).Nodup)
    (hl : b.lookup k = some v) : blockCount (b.delete k) + 1 = blockCount b := by
  induction b with
  | nil => simp [Blocks.lookup] at hl
  | cons e rest ih =>
    obtain ⟨k', v'⟩ := e
    simp only [List.map_cons, List.nodup_cons] at hn
    by_cases hk : k' = k
    · subst hk
      have hrest : rest.filter (fun e => decide (e.1 ≠ k')) = rest := by
        rw [List.filter_eq_self]
        intro e he
        have : e.1 ≠ k' := fun hc => hn.1 (by rw [← hc]; exact List.mem_map_of_mem _ he)
        simpa using this
      simp only [blockCount, Blocks.delete, List.filter_cons]
      simp only [ne_eq, not_true_eq_false, decide_False, Bool.false_eq_true, if_false]
      rw [hrest]
      rfl
    · have hl2 : Blocks.lookup rest k = some v := by
        simpa [Blocks.lookup, hk] using hl
      have := ih hn.2 hl2
      simp only [blockCount, Blocks.delete, List.filter_cons, ne_eq] at this ⊢
      simp only [hk, not_false_eq_true, decide_True, if_true, List.length_cons]
      omega

theorem lookup_of_getBlock_pos (b : Blocks) (x y z : Int) (t : Nat) (ht : t ≠ 0)
    (h : getBlock b x y z = t) : b.lookup (keyFrom x y z) = some t := by
  unfold getBlock at h
  split at h
  · exact absurd h.symm ht
  · rename_i v hv
    rw [hv, h]

/-- Removing a stored block of a map with distinct keys lowers the key count
by exactly one. -/
theorem count_after_remove (b : Blocks) (x y z : Int) (t : Nat) (ht : t ≠ 0)
    (hn : (b.map Prod.fst).Nodup) (hb : ¬ outOfBounds x y z) (h : getBlock b x y z = t) :
    blockCount (setBlock b x y z 0) + 1 = blockCount b := by
  have hs : setBlock b x y z 0 = b.delete (keyFrom x y z) := by
    unfold setBlock
    rw [if_neg hb, if_pos rfl]
  rw [hs]
  exact count_delete b _ t hn (lookup_of_getBlock_pos b x y z t ht h)

/-- C3 (amended): after `generateTerrain` with no stone placed (every draw is
at most 0.92), for every in-bounds column `(x,z)` with
`h = 2 + floor(2*sin(x/4) + 2*cos(z/4))`: `h` lies within `[-2, 6]`; no cell
above `h` holds a block; when `h ≥ 0` the cell `(x,h,z)` holds grass, every
cell `(x,y,z)` with `0 ≤ y < h` holds dirt, and removing `(x,h,z)` lowers the
block count by exactly 1; when `h < 0` the column holds no block. -/
theorem terrain_columns (draws : Nat → ℚ) (hd : ∀ i, draws i ≤ 0.92) (x z : Int)
    (hx : 0 ≤ x ∧ x < WORLD_SIZE) (hz : 0 ≤ z ∧ z < WORLD_SIZE) :
    (-2 ≤ columnHeight x z ∧ columnHeight x z ≤ 6) ∧
      (∀ y : Int, columnHeight x z < y → getBlock (generateTerrain draws) x y z = 0) ∧
      (0 ≤ columnHeight x z →
        getBlock (generateTerrain draws) x (columnHeight x z) z = 1 ∧
          (∀ y : Int, 0 ≤ y → y < columnHeight x z →
            getBlock (generateTerrain draws) x y z = 2) ∧
          blockCount (setBlock (generateTerrain draws) x (columnHeight x z) z 0) + 1
            = blockCount (generateTerrain draws)) ∧
      (columnHeight x z < 0 → ∀ y : Int, getBlock (generateTerrain draws) x y z = 0) := by
  have hb := columnHeight_bounds x z
  have hin : ∀ y : Int, 0 ≤ y → y ≤ columnHeight x z → ¬ outOfBounds x y z := by
    intro y h0 h1
    unfold outOfBounds WORLD_HEIGHT
    omega
  refine ⟨hb, ?_, ?_, ?_⟩
  · intro y hy
    apply (generateTerrainWith_getBlock columnHeight draws hd x y z).2
    intro hc
    omega
  · intro h0
    have htop : getBlock (generateTerrain draws) x (columnHeight x z) z = 1 := by
      have := (generateTerrainWith_getBlock columnHeight draws hd x (columnHeight x z) z).1
        ⟨le_refl _, hin _ h0 (le_refl _)⟩
      rw [if_pos rfl] at this
      exact this
    refine ⟨htop, ?_, ?_⟩
    · intro y hy0 hy1
      have := (generateTerrainWith_getBlock columnHeight draws hd x y z).1
        ⟨le_of_lt hy1, hin y hy0 (le_of_lt hy1)⟩
      rw [if_neg (ne_of_lt hy1)] at this
      exact this
    · exact count_after_remove _ x _ z 1 (by decide)
        (generateTerrainWith_keys_nodup columnHeight draws) (hin _ h0 (le_refl _)) htop
  · intro hneg y
    apply (generateTerrainWith_getBlock columnHeight draws hd x y z).2
    rintro ⟨hy, hob⟩
    unfold outOfBounds at hob
    omega

theorem terrain_columns_witness :
    getBlock (generateTerrain (fun _ => 0)) 0 (columnHeight 0 0) 0 = 1 ∧
      blockCount (setBlock (generateTerrain (fun _ => 0)) 0 (columnHeight 0 0) 0 0) + 1
        = blockCount (generateTerrain (fun _ => 0)) :=
  have h := (terrain_columns (fun _ => 0) (fun _ => by norm_num) 0 0 (by decide)
    (by decide)).2.2.1 (by rw [columnHeight_origin]; decide)
  ⟨h.1, h.2.2⟩

/-- C3 (counterexample): the column `(16,16)` of the end-to-end scenario has
height `h = 2 + floor(2*sin(4) + 2*cos(4)) = -1`, outside `[0, WORLD_HEIGHT]`;
after a generation without stone the cell `(16,h,16)` holds no grass, the
whole column is empty, and removing `(16,h,16)` leaves the block count
unchanged. -/
theorem terrain_column_16_16_empty :
    columnHeight 16 16 = -1 ∧ ¬ (0 ≤ columnHeight 16 16) ∧
      getBlock (generateTerrain (fun _ => 0)) 16 (columnHeight 16 16) 16 ≠ 1 ∧
      (∀ y : Int, getBlock (generateTerrain (fun _ => 0)) 16 y 16 = 0) ∧
      blockCount (setBlock (generateTerrain (fun _ => 0)) 16 (columnHeight 16 16) 16 0)
        = blockCount (generateTerrain (fun _ => 0)) := by
  have hd : ∀ i : Nat, (fun _ : Nat => (0 : ℚ)) i ≤ 0.92 := fun _ => by norm_num
  have hcol : ∀ y : Int, getBlock (generateTerrain (fun _ => 0)) 16 y 16 = 0 := by
    intro y
    apply (generateTerrainWith_getBlock columnHeight _ hd 16 y 16).2
    rintro ⟨hy, hob⟩
    rw [columnHeight_16_16] at hy
    unfold outOfBounds at hob
    omega
  refine ⟨columnHeight_16_16, ?_, ?_, hcol, ?_⟩
  · rw [columnHeight_16_16]
    decide
  · rw [hcol]
    decide
  · rw [columnHeight_16_16, setBlock_outOfBounds]
    unfold outOfBounds
    decide

end MiniVoxel
